import Mathlib

/-!
Shallow embedding of the portfolio backend (src/main.py, src/schemas.py):
Pydantic entity schemas, the Mongo-style query built by the /projects
endpoint, the seed routine, and the request handlers, together with proofs
of the specification claims about them.

The document-store adapter (database.py: `db`, `create_document`,
`get_documents`) is not part of the provided sources; those operations are
modelled from the spec (section 4.2) as an in-memory store of per-collection
document lists.
-/

namespace PortfolioBackend

/-! ## Text matching (the store's case-insensitive regex match) -/

/-- Modelled from the spec: the document store's `$regex` with `$options: "i"`
on a plain pattern string, i.e. case-insensitive substring containment
("case-insensitive substring match on title OR summary OR any tag").
`lowerChar` folds case the way the store's `i` option does. -/
def lowerChar (c : Char) : Char := c.toLower

/-- Does `pat` occur at the head of the second list? -/
def leadMatch : List Char → List Char → Bool
  | [], _ => true
  | _ :: _, [] => false
  | a :: as, b :: bs => a == b && leadMatch as bs

/-- Does `needle` occur anywhere in the list? -/
def subSearch (needle : List Char) : List Char → Bool
  | [] => leadMatch needle []
  | c :: rest => leadMatch needle (c :: rest) || subSearch needle rest

/-- Case-insensitive substring test, the semantics of
`{"$regex": needle, "$options": "i"}` on a plain (metacharacter-free)
pattern, as used by `list_projects` in src/main.py lines 189-193. -/
def containsCI (hay needle : String) : Bool :=
  subSearch (needle.data.map lowerChar) (hay.data.map lowerChar)

/-! ## URL well-formedness (pydantic `HttpUrl`) -/

/-- Split a character list at the first `://`, returning the scheme part and
the remainder. -/
def schemeSplit : List Char → Option (List Char × List Char)
  | [] => none
  | ':' :: '/' :: '/' :: rest => some ([], rest)
  | c :: rest =>
      match schemeSplit rest with
      | some (a, b) => some (c :: a, b)
      | none => none

/-- Modelled from the spec: pydantic's `HttpUrl` validation of src/schemas.py,
"URL-typed fields reject non-well-formed URLs (must have a scheme and host)
but accept absence". -/
def wellFormedUrl (s : String) : Bool :=
  match schemeSplit s.data with
  | some (scheme, rest) =>
      !scheme.isEmpty && !((rest.takeWhile (fun c => c != '/')).isEmpty)
  | none => false

/-- A validated URL value (the result type of a successful `HttpUrl` parse). -/
def Url : Type := { s : String // wellFormedUrl s = true }

/-! ## Free-form JSON values (`plotly_fig: Optional[Dict[str, Any]]`) -/

/-- A JSON-like tree for the free-form `plotly_fig` field of `Project`
(src/schemas.py line 49): an opaque structured value the service never
inspects. -/
inductive JsonVal where
  | str : String → JsonVal
  | num : Rat → JsonVal
  | boolean : Bool → JsonVal
  | arr : List JsonVal → JsonVal
  | obj : List (String × JsonVal) → JsonVal

/-! ## Enumerations (`Literal` fields of src/schemas.py) -/

/-- The `domain` enumeration of `Project`
(src/schemas.py line 37: `Literal["ML", "Analytics", "Visualization",
"NLP", "CV", "Time Series", "MLOps", "Other"]`). -/
inductive Domain where
  | ML | Analytics | Visualization | NLP | CV | TimeSeries | MLOps | Other
deriving DecidableEq

/-- The string denoted by each `domain` enumeration member, exactly as
spelled in the `Literal` type of src/schemas.py line 37. -/
def Domain.toStr : Domain → String
  | .ML => "ML"
  | .Analytics => "Analytics"
  | .Visualization => "Visualization"
  | .NLP => "NLP"
  | .CV => "CV"
  | .TimeSeries => "Time Series"
  | .MLOps => "MLOps"
  | .Other => "Other"

/-- The admissible `domain` strings, in declaration order of the `Literal`
type of src/schemas.py line 37. -/
def domainStrings : List String :=
  ["ML", "Analytics", "Visualization", "NLP", "CV", "Time Series", "MLOps", "Other"]

/-- Parse a raw string against the `domain` `Literal` of src/schemas.py
line 37 (pydantic accepts exactly the listed strings). -/
def parseDomain (s : String) : Option Domain :=
  if s = "ML" then some .ML
  else if s = "Analytics" then some .Analytics
  else if s = "Visualization" then some .Visualization
  else if s = "NLP" then some .NLP
  else if s = "CV" then some .CV
  else if s = "Time Series" then some .TimeSeries
  else if s = "MLOps" then some .MLOps
  else if s = "Other" then some .Other
  else none

/-- The `kind` enumeration of `Publication`
(src/schemas.py line 61: `Literal["paper", "talk", "workshop"]`). -/
inductive PubKind where
  | paper | talk | workshop
deriving DecidableEq

/-- Parse a raw string against the `kind` `Literal` of src/schemas.py
line 61. -/
def parseKind (s : String) : Option PubKind :=
  if s = "paper" then some .paper
  else if s = "talk" then some .talk
  else if s = "workshop" then some .workshop
  else none

/-! ## Validated entities (the pydantic models of src/schemas.py) -/

/-- `Project` (src/schemas.py lines 33-52). -/
structure Project where
  title : String
  slug : String
  summary : String
  domain : Domain
  stack : List String
  year : Int
  problem : String
  approach : String
  dataset : String
  model : String
  results : String
  impact : String
  github_url : Option Url
  demo_url : Option Url
  tags : List String
  plotly_fig : Option JsonVal

/-- `Publication` (src/schemas.py lines 54-61). -/
structure Publication where
  title : String
  venue : String
  year : Int
  authors : List String
  link : Option Url
  slides_url : Option Url
  kind : PubKind

/-- `BlogPost` (src/schemas.py lines 63-69). -/
structure BlogPost where
  title : String
  slug : String
  excerpt : String
  body : String
  topics : List String
  published_at : String

/-- `ContactMessage` (src/schemas.py lines 71-75). -/
structure ContactMessage where
  name : String
  email : String
  message : String
  source : Option String

/-! ## Raw payloads and validation

A raw payload is a mapping of field names to values in which any field may
be absent (`none`).  Validation embeds pydantic's checking of the declared
schema: required fields must be present, `Literal` fields must be one of the
listed strings, URL fields must be well-formed when present, and list fields
default to their declared `[]` default when absent. -/

/-- A raw `Project` payload (field set of src/schemas.py lines 33-52). -/
structure RawProject where
  title : Option String
  slug : Option String
  summary : Option String
  domain : Option String
  stack : Option (List String)
  year : Option Int
  problem : Option String
  approach : Option String
  dataset : Option String
  model : Option String
  results : Option String
  impact : Option String
  github_url : Option String
  demo_url : Option String
  tags : Option (List String)
  plotly_fig : Option JsonVal

/-- A raw `Publication` payload (field set of src/schemas.py lines 54-61). -/
structure RawPublication where
  title : Option String
  venue : Option String
  year : Option Int
  authors : Option (List String)
  link : Option String
  slides_url : Option String
  kind : Option String

/-- A raw `BlogPost` payload (field set of src/schemas.py lines 63-69). -/
structure RawBlogPost where
  title : Option String
  slug : Option String
  excerpt : Option String
  body : Option String
  topics : Option (List String)
  published_at : Option String

/-- A raw `ContactMessage` payload (field set of src/schemas.py
lines 71-75). -/
structure RawContact where
  name : Option String
  email : Option String
  message : Option String
  source : Option String

/-- Validate an optional URL field: absence is accepted, a present string
must satisfy `wellFormedUrl` (pydantic `Optional[HttpUrl] = None`). -/
def checkUrl : Option String → Option (Option Url)
  | none => some none
  | some s => if h : wellFormedUrl s = true then some (some ⟨s, h⟩) else none

/-- Pydantic validation of a raw payload against the `Project` schema
(src/schemas.py lines 33-52): required string/int fields must be present,
`domain` must parse against its `Literal`, URL fields may be absent but must
be well-formed when present, `stack`/`tags` default to `[]`, and
`plotly_fig` passes through uninspected. -/
def validateProject (r : RawProject) : Option Project :=
  match r.title, r.slug, r.summary, r.domain.bind parseDomain, r.year,
        r.problem, r.approach, r.dataset, r.model, r.results, r.impact,
        checkUrl r.github_url, checkUrl r.demo_url with
  | some title, some slug, some summary, some domain, some year,
    some problem, some approach, some dataset, some model, some results,
    some impact, some gh, some dm =>
      some { title := title, slug := slug, summary := summary,
             domain := domain, stack := r.stack.getD [], year := year,
             problem := problem, approach := approach, dataset := dataset,
             model := model, results := results, impact := impact,
             github_url := gh, demo_url := dm, tags := r.tags.getD [],
             plotly_fig := r.plotly_fig }
  | _, _, _, _, _, _, _, _, _, _, _, _, _ => none

/-- Pydantic validation of a raw payload against the `Publication` schema
(src/schemas.py lines 54-61): `title`, `venue`, `year` and `authors` are
required (note: `authors: List[str]` carries no default), URL fields are
optional, and `kind` defaults to `"paper"` when absent. -/
def validatePublication (r : RawPublication) : Option Publication :=
  match r.title, r.venue, r.year, r.authors,
        checkUrl r.link, checkUrl r.slides_url,
        (match r.kind with
         | none => some PubKind.paper
         | some s => parseKind s) with
  | some title, some venue, some year, some authors, some link, some slides,
    some kind =>
      some { title := title, venue := venue, year := year,
             authors := authors, link := link, slides_url := slides,
             kind := kind }
  | _, _, _, _, _, _, _ => none

/-- Pydantic validation of a raw payload against the `BlogPost` schema
(src/schemas.py lines 63-69): all string fields are required and `topics`
defaults to `[]`. -/
def validateBlogPost (r : RawBlogPost) : Option BlogPost :=
  match r.title, r.slug, r.excerpt, r.body, r.published_at with
  | some title, some slug, some excerpt, some body, some published_at =>
      some { title := title, slug := slug, excerpt := excerpt,
             body := body, topics := r.topics.getD [],
             published_at := published_at }
  | _, _, _, _, _ => none

/-- Serialization of a validated `Project` back to a raw mapping (spec
section 4.1: "given a typed entity, produce a raw mapping suitable for
storage"). -/
def Project.toRaw (p : Project) : RawProject :=
  { title := some p.title, slug := some p.slug, summary := some p.summary,
    domain := some p.domain.toStr, stack := some p.stack,
    year := some p.year, problem := some p.problem,
    approach := some p.approach, dataset := some p.dataset,
    model := some p.model, results := some p.results,
    impact := some p.impact,
    github_url := p.github_url.map (fun u => u.val),
    demo_url := p.demo_url.map (fun u => u.val),
    tags := some p.tags, plotly_fig := p.plotly_fig }

/-- Serialization of a validated `ContactMessage` to a raw mapping for
storage by `create_document` (src/main.py line 220). -/
def ContactMessage.toRaw (m : ContactMessage) : RawContact :=
  { name := some m.name, email := some m.email, message := some m.message,
    source := m.source }

/-! ## The document store

`database.py` is not among the provided sources; the adapter below is
modelled from the spec, section 4.2: `insert` persists a document and
assigns it an opaque identifier, `find` returns the documents matching a
filter in store order, `count` returns the number of matching documents. -/

/-- A stored document: the store-assigned `_id` together with the raw
fields. -/
structure Doc (α : Type) where
  id : Nat
  fields : α

/-- Modelled from the spec: the state of the document store, one document
list per collection used by src/main.py, plus the next identifier to
assign.  The enclosing `Option Store` of each handler is `none` when the
store is unconfigured (`db is None`). -/
structure Store where
  nextId : Nat
  project : List (Doc RawProject)
  publication : List (Doc RawPublication)
  blogpost : List (Doc RawBlogPost)
  contactmessage : List (Doc RawContact)

/-- Modelled from the spec: `find(collection, filter)` — the documents of
the collection whose fields satisfy the filter, in store order. -/
def get_documents {α : Type} (coll : List (Doc α)) (flt : α → Bool) :
    List (Doc α) :=
  coll.filter (fun d => flt d.fields)

/-- Modelled from the spec: `count(collection, filter)` — the number of
matching documents (`count_documents` in src/main.py lines 58, 116, 138). -/
def count_documents {α : Type} (coll : List (Doc α)) (flt : α → Bool) :
    Nat :=
  (get_documents coll flt).length

/-- Modelled from the spec: `insert` into the `project` collection
(`create_document("project", p)`, src/main.py line 114). -/
def insertProject (st : Store) (r : RawProject) : Store :=
  { st with project := st.project ++ [⟨st.nextId, r⟩],
            nextId := st.nextId + 1 }

/-- Modelled from the spec: `insert` into the `publication` collection
(`create_document("publication", pub)`, src/main.py line 136). -/
def insertPublication (st : Store) (r : RawPublication) : Store :=
  { st with publication := st.publication ++ [⟨st.nextId, r⟩],
            nextId := st.nextId + 1 }

/-- Modelled from the spec: `insert` into the `blogpost` collection
(`create_document("blogpost", post)`, src/main.py line 174). -/
def insertBlogPost (st : Store) (r : RawBlogPost) : Store :=
  { st with blogpost := st.blogpost ++ [⟨st.nextId, r⟩],
            nextId := st.nextId + 1 }

/-- Modelled from the spec: `insert` into the `contactmessage` collection
(`create_document("contactmessage", msg)`, src/main.py line 220). -/
def insertContact (st : Store) (r : RawContact) : Store :=
  { st with contactmessage := st.contactmessage ++ [⟨st.nextId, r⟩],
            nextId := st.nextId + 1 }

/-! ## The /projects query builder (src/main.py lines 183-193) -/

/-- Python truthiness of an optional string parameter (`if domain:` /
`if q:` in src/main.py lines 184, 188): false when the parameter is absent
or the empty string. -/
def truthyStr : Option String → Bool
  | none => false
  | some s => s != ""

/-- Python truthiness of an optional integer parameter (`if year:` in
src/main.py line 186): false when the parameter is absent or zero. -/
def truthyInt : Option Int → Bool
  | none => false
  | some n => n != 0

/-- The query dictionary built by `list_projects`: an entry of `none` means
the corresponding key is absent from the dictionary.  `orRegex` holds the
pattern of the `$or` clause of the three case-insensitive `$regex`
conditions on `title`, `summary` and `tags`. -/
structure ProjectQuery where
  domain : Option String
  year : Option Int
  orRegex : Option String
deriving DecidableEq

/-- The query construction of src/main.py lines 183-193: starting from the
empty dictionary, the `domain` key is set when `domain` is truthy, the
`year` key when `year` is truthy, and the `$or` regex clause when `q` is
truthy. -/
def buildProjectQuery (domain : Option String) (year : Option Int)
    (q : Option String) : ProjectQuery :=
  { domain := if truthyStr domain then domain else none,
    year := if truthyInt year then year else none,
    orRegex := if truthyStr q then q else none }

/-- Modelled from the spec: the store's evaluation of the `$or` clause of
src/main.py lines 189-193 on a document — the pattern matches the `title`
field, the `summary` field, or any element of the `tags` array,
case-insensitively; a missing field matches nothing. -/
def orClauseMatch (pat : String) (d : RawProject) : Bool :=
  (match d.title with
   | some t => containsCI t pat
   | none => false) ||
  (match d.summary with
   | some t => containsCI t pat
   | none => false) ||
  ((d.tags.getD []).any (fun t => containsCI t pat))

/-- Modelled from the spec: the store's evaluation of a built query on a
document — each present key constrains the document conjunctively: exact
match on `domain`, exact match on `year`, and the `$or` regex clause. -/
def queryMatches (qu : ProjectQuery) (d : RawProject) : Bool :=
  (match qu.domain with
   | none => true
   | some s => d.domain == some s) &&
  (match qu.year with
   | none => true
   | some y => d.year == some y) &&
  (match qu.orRegex with
   | none => true
   | some pat => orClauseMatch pat d)

/-- The filter the spec's contract describes (section 4.3), written from
the spec's words for comparison with the code's
`queryMatches ∘ buildProjectQuery`: exact match on `domain` if given, AND
exact match on `year` if given, AND the case-insensitive substring clause
if the free-text query is given; every absent parameter contributes no
constraint. -/
def specProjectFilter (domain : Option String) (year : Option Int)
    (q : Option String) (d : RawProject) : Bool :=
  (match domain with
   | none => true
   | some s => d.domain == some s) &&
  (match year with
   | none => true
   | some y => d.year == some y) &&
  (match q with
   | none => true
   | some pat => orClauseMatch pat d)

/-! ## Request handlers (src/main.py) -/

/-- The outcome of a handler: a successful response value, or an
`HTTPException` carrying a status code and detail string. -/
inductive HandlerResult (α : Type) where
  | ok : α → HandlerResult α
  | httpError : Nat → String → HandlerResult α
deriving DecidableEq

/-- `GET /projects` (src/main.py lines 179-196): empty list when the store
is unconfigured; otherwise build the query, fetch the matching documents,
strip the store identifier from each and validate it against the `Project`
schema.  The result is `none` when some stored document fails validation
(the handler would raise). -/
def list_projects (dbSt : Option Store) (domain : Option String)
    (year : Option Int) (q : Option String) : Option (List Project) :=
  match dbSt with
  | none => some []
  | some st =>
      (get_documents st.project
        (queryMatches (buildProjectQuery domain year q))).mapM
        (fun d => validateProject d.fields)

/-- `GET /publications` (src/main.py lines 198-203): empty list when the
store is unconfigured; otherwise fetch every document (`{}` filter), strip
the identifier and validate against the `Publication` schema. -/
def list_publications (dbSt : Option Store) : Option (List Publication) :=
  match dbSt with
  | none => some []
  | some st =>
      (get_documents st.publication (fun _ => true)).mapM
        (fun d => validatePublication d.fields)

/-- `GET /blog` (src/main.py lines 205-210): empty list when the store is
unconfigured; otherwise fetch every document (`{}` filter), strip the
identifier and validate against the `BlogPost` schema. -/
def list_blog (dbSt : Option Store) : Option (List BlogPost) :=
  match dbSt with
  | none => some []
  | some st =>
      (get_documents st.blogpost (fun _ => true)).mapM
        (fun d => validateBlogPost d.fields)

/-- `POST /contact` (src/main.py lines 216-221): a 500 error when the store
is unconfigured, leaving the store state unchanged; otherwise insert the
serialized message into the `contactmessage` collection and acknowledge
with `{"status": "received"}`.  The returned pair is the store state after
the call and the handler outcome. -/
def submit_contact (dbSt : Option Store) (m : ContactMessage) :
    Option Store × HandlerResult String :=
  match dbSt with
  | none => (none, .httpError 500 "Database not configured")
  | some st => (some (insertContact st m.toRaw), .ok "received")

/-! ## The seed routine (src/main.py lines 51-176) -/

/-- The shared sample GitHub link of the seed projects
(src/main.py lines 73, 93, 109). -/
def githubSample : Url := ⟨"https://github.com/", by decide⟩

/-- The hardcoded sample projects of src/main.py lines 59-112, as the
validated `Project` values the handler constructs. -/
def sampleProjects : List Project :=
  [ { title := "Customer Churn Prediction",
      slug := "customer-churn-prediction",
      summary := "Predict churn with explainable ML to prioritize retention actions.",
      domain := .ML,
      stack := ["Python", "scikit-learn", "XGBoost", "SHAP"],
      year := 2023,
      problem := "Identify customers likely to churn in the next 60 days.",
      approach := "Feature engineering + gradient boosting with class-weighting and calibration.",
      dataset := "Telco churn dataset + proprietary CRM features.",
      model := "XGBoost with Bayesian optimization; SHAP for interpretability.",
      results := "AUC 0.89, recall 76% at 15% alert rate.",
      impact := "Reduced churn by 5.2% in pilot, saving ~$1.1M ARR.",
      github_url := some githubSample,
      demo_url := none,
      tags := ["classification", "retention", "explainability"],
      plotly_fig := some (.obj
        [("data", .arr [.obj
            [("type", .str "bar"),
             ("x", .arr [.str "Contract", .str "Tenure", .str "MonthlyCharges"]),
             ("y", .arr [.num 0.34, .num 0.27, .num 0.18])]]),
         ("layout", .obj [("title", .str "Top Features (SHAP)")])]) },
    { title := "Demand Forecasting with Hierarchical Time Series",
      slug := "demand-forecasting-hts",
      summary := "Weekly forecasts across 120 SKUs with reconciliation and uncertainty.",
      domain := .TimeSeries,
      stack := ["Python", "Prophet", "statsmodels", "scikit-learn"],
      year := 2022,
      problem := "Improve inventory planning across regions and SKUs.",
      approach := "Feature-rich SARIMAX + gradient boosting for residuals; hierarchical reconciliation.",
      dataset := "Sales transactions 3 years + promo calendar.",
      model := "SARIMAX + LightGBM residual model.",
      results := "MAPE 8.6% overall; stockouts down 23%.",
      impact := "Saved $420k in holding and lost sales.",
      github_url := some githubSample,
      demo_url := none,
      tags := ["forecasting", "inventory", "hts"],
      plotly_fig := none },
    { title := "Interactive Mobility Dashboard",
      slug := "mobility-dashboard",
      summary := "City mobility patterns explored via interactive geovisualizations.",
      domain := .Visualization,
      stack := ["Python", "Altair", "Deck.gl"],
      year := 2024,
      problem := "Understand peak congestion corridors.",
      approach := "Aggregated GPS pings and derived OD matrices; built interactive views.",
      dataset := "1.2B GPS pings over 6 months.",
      model := "Clustering + KDE for hotspots.",
      results := "Revealed 3 critical choke points.",
      impact := "Informed signal timing policy saving ~8% commute time.",
      github_url := some githubSample,
      demo_url := none,
      tags := ["geospatial", "altair", "dashboard"],
      plotly_fig := none } ]

/-- The hardcoded sample publications of src/main.py lines 117-134,
inserted as raw dictionaries (no `link` key). -/
def samplePublications : List RawPublication :=
  [ { title := some "Storytelling with Data: From Insight to Impact",
      venue := some "Global Data Summit",
      year := some 2024,
      authors := some ["Muhamad Juwandi"],
      link := none,
      slides_url := some "https://slides.com/",
      kind := some "talk" },
    { title := some "Robust ML Pipelines with MLOps",
      venue := some "PyData",
      year := some 2023,
      authors := some ["Muhamad Juwandi"],
      link := none,
      slides_url := some "https://slides.com/",
      kind := some "workshop" } ]

/-- The hardcoded sample blog posts of src/main.py lines 139-172, inserted
as raw dictionaries. -/
def sampleBlogPosts : List RawBlogPost :=
  [ { title := some "Designing Ethical AI Systems",
      slug := some "ethical-ai",
      excerpt := some "Principles and practical checklists for responsible ML.",
      body := some "Long-form body in Markdown or MDX.",
      topics := some ["ethics", "ai"],
      published_at := some "2024-05-11" },
    { title := some "Visualization Patterns that Clarify",
      slug := some "viz-patterns",
      excerpt := some "Choosing encodings that match mental models.",
      body := some "Post content...",
      topics := some ["viz", "design"],
      published_at := some "2024-03-03" },
    { title := some "From Notebook to Production",
      slug := some "notebook-to-prod",
      excerpt := some "A compact guide to MLOps for data scientists.",
      body := some "Post content...",
      topics := some ["mlops", "devops"],
      published_at := some "2023-11-18" },
    { title := some "R + Python for Analytics",
      slug := some "r-plus-python",
      excerpt := some "Leverage strengths of both ecosystems.",
      body := some "Post content...",
      topics := some ["r", "python"],
      published_at := some "2023-07-07" } ]

/-- Seeding step for the `project` collection (src/main.py lines 58-114):
if `count_documents({})` is zero, insert each serialized sample project in
order; otherwise leave the store unchanged. -/
def seedProjects (st : Store) : Store :=
  if count_documents st.project (fun _ => true) == 0 then
    sampleProjects.foldl (fun s p => insertProject s p.toRaw) st
  else st

/-- Seeding step for the `publication` collection
(src/main.py lines 116-136). -/
def seedPublications (st : Store) : Store :=
  if count_documents st.publication (fun _ => true) == 0 then
    samplePublications.foldl insertPublication st
  else st

/-- Seeding step for the `blogpost` collection
(src/main.py lines 138-174). -/
def seedBlogPosts (st : Store) : Store :=
  if count_documents st.blogpost (fun _ => true) == 0 then
    sampleBlogPosts.foldl insertBlogPost st
  else st

/-- The store transformation of `POST /seed`: the three collection steps in
the order of src/main.py lines 58, 116, 138. -/
def seedStore (st : Store) : Store :=
  seedBlogPosts (seedPublications (seedProjects st))

/-- `POST /seed` (src/main.py lines 51-176): a 500 error when the store is
unconfigured; otherwise seed each empty collection and return
`{"status": "ok"}`.  The returned pair is the store state after the call
and the handler outcome. -/
def seed_content (dbSt : Option Store) :
    Option Store × HandlerResult String :=
  match dbSt with
  | none => (none, .httpError 500 "Database not configured")
  | some st => (some (seedStore st), .ok "ok")

/-! ## The diagnostic endpoint (src/main.py lines 24-48) -/

/-- Observable store-connection state for `GET /test`: the database's
`name` attribute (`getattr(db, 'name', None)`) and the outcome of probing
`db.list_collection_names()` — either the collection names or the message
of the exception the probe raised. -/
structure ConnInfo where
  name : Option String
  listCollectionNames : Except String (List String)

/-- Process environment consulted by `GET /test`: whether `DATABASE_URL`
and `DATABASE_NAME` are set. -/
structure TestEnv where
  databaseUrlSet : Bool
  databaseNameSet : Bool

/-- The response dictionary of `GET /test` (src/main.py lines 26-33). -/
structure TestResponse where
  backend : String
  database : String
  database_url : Option String
  database_name : Option String
  connection_status : String
  collections : List String
deriving DecidableEq

/-- `GET /test` (src/main.py lines 24-48).  The function is total — every
store condition, including a raised probe exception, is rendered into the
response dictionary, never propagated.  With `db` unset the initial
dictionary is returned with only the `database` field overwritten by the
`else` branch of line 45; with `db` set, the connection fields are filled
in and a probe failure replaces `database` with the truncated error string
of line 43 while `collections` stays empty. -/
def test_database (env : TestEnv) (conn : Option ConnInfo) : TestResponse :=
  let base : TestResponse :=
    { backend := "✅ Running",
      database := "❌ Not Available",
      database_url := none,
      database_name := none,
      connection_status := "Not Connected",
      collections := [] }
  match conn with
  | none => { base with database := "⚠️ Available but not initialized" }
  | some c =>
      let connected : TestResponse :=
        { base with
          database := "✅ Connected & Working",
          database_url :=
            some (if env.databaseUrlSet then "✅ Set" else "❌ Not Set"),
          database_name :=
            some (match c.name with
                  | some s =>
                      if s != "" then s
                      else if env.databaseNameSet then "✅ Set" else "❌ Not Set"
                  | none =>
                      if env.databaseNameSet then "✅ Set" else "❌ Not Set"),
          connection_status := "Connected" }
      match c.listCollectionNames with
      | .ok names => { connected with collections := names.take 10 }
      | .error e =>
          { connected with
            database := "⚠️ Connected but error: " ++ e.take 80 }

/-! ## Concrete payloads used in witnesses and counterexamples -/

/-- A stored project document carrying only a `domain` field, used to probe
the /projects filter. -/
def cexRawDoc : RawProject :=
  { title := none, slug := none, summary := none, domain := some "ML",
    stack := none, year := none, problem := none, approach := none,
    dataset := none, model := none, results := none, impact := none,
    github_url := none, demo_url := none, tags := none, plotly_fig := none }

/-- A `Project` payload complete in every field except that `domain` is the
given string, used to probe enum validation. -/
def rawDomainProbe (d : String) : RawProject :=
  { title := some "T", slug := some "s", summary := some "S",
    domain := some d, stack := none, year := some 2024,
    problem := some "P", approach := some "A", dataset := some "D",
    model := some "M", results := some "R", impact := some "I",
    github_url := none, demo_url := none, tags := none,
    plotly_fig := none }

/-- The non-`domain` requirements of the `Project` schema: every required
field present and every given URL well-formed. -/
def otherFieldsOk (r : RawProject) : Bool :=
  r.title.isSome && r.slug.isSome && r.summary.isSome && r.year.isSome &&
  r.problem.isSome && r.approach.isSome && r.dataset.isSome &&
  r.model.isSome && r.results.isSome && r.impact.isSome &&
  (checkUrl r.github_url).isSome && (checkUrl r.demo_url).isSome

/-- A `Publication` payload complete in every field except `authors`, which
is absent. -/
def rawPubNoAuthors : RawPublication :=
  { title := some "T", venue := some "V", year := some 2024,
    authors := none, link := none, slides_url := none,
    kind := some "talk" }

/-- A `Project` payload omitting the `stack` and `tags` list fields. -/
def rawMinProject : RawProject :=
  { title := some "T", slug := some "s", summary := some "S",
    domain := some "ML", stack := none, year := some 2024,
    problem := some "P", approach := some "A", dataset := some "D",
    model := some "M", results := some "R", impact := some "I",
    github_url := none, demo_url := none, tags := none,
    plotly_fig := none }

/-- The validated form of `rawMinProject`. -/
def minProject : Project :=
  { title := "T", slug := "s", summary := "S", domain := .ML, stack := [],
    year := 2024, problem := "P", approach := "A", dataset := "D",
    model := "M", results := "R", impact := "I", github_url := none,
    demo_url := none, tags := [], plotly_fig := none }

/-- A `BlogPost` payload omitting the `topics` list field. -/
def rawMinBlog : RawBlogPost :=
  { title := some "B", slug := some "b", excerpt := some "E",
    body := some "Y", topics := none, published_at := some "2024-01-01" }

/-- The validated form of `rawMinBlog`. -/
def minBlog : BlogPost :=
  { title := "B", slug := "b", excerpt := "E", body := "Y", topics := [],
    published_at := "2024-01-01" }

/-! ## Helper lemmas -/

lemma get_documents_true {α : Type} (coll : List (Doc α)) :
    get_documents coll (fun _ => true) = coll :=
  List.filter_eq_self.mpr (fun _ _ => rfl)

lemma count_documents_true {α : Type} (coll : List (Doc α)) :
    count_documents coll (fun _ => true) = coll.length := by
  rw [count_documents, get_documents_true]

lemma parseDomain_toStr (d : Domain) : parseDomain d.toStr = some d := by
  cases d <;> rfl

lemma checkUrl_map_val (u : Option Url) :
    checkUrl (u.map (fun x => x.val)) = some u := by
  cases u with
  | none => rfl
  | some v =>
      show checkUrl (some v.val) = some (some v)
      rw [checkUrl]
      rw [dif_pos v.property]
      rfl

lemma validateProject_toRaw (p : Project) :
    validateProject p.toRaw = some p := by
  rw [validateProject]
  simp [Project.toRaw, parseDomain_toStr, checkUrl_map_val]

lemma nonfalsy_str (o : Option String) (h : o ≠ some "") :
    (if truthyStr o then o else none) = o := by
  cases o with
  | none => simp [truthyStr]
  | some s =>
      have hb : (s != "") = true := bne_iff_ne.mpr (fun he => h (by rw [he]))
      simp [truthyStr, hb]

lemma nonfalsy_int (o : Option Int) (h : o ≠ some 0) :
    (if truthyInt o then o else none) = o := by
  cases o with
  | none => simp [truthyInt]
  | some n =>
      have hb : (n != 0) = true := bne_iff_ne.mpr (fun he => h (by rw [he]))
      simp [truthyInt, hb]

lemma parseDomain_isSome (s : String) :
    (parseDomain s).isSome = true ↔ s ∈ domainStrings := by
  rw [parseDomain, domainStrings]
  split_ifs <;> simp_all

lemma foldl_insertProject_project (l : List Project) (st : Store) :
    ((l.foldl (fun s p => insertProject s p.toRaw) st)).project.length
      = st.project.length + l.length := by
  induction l generalizing st with
  | nil => rfl
  | cons a t ih =>
      rw [List.foldl_cons, ih]
      simp [insertProject]
      omega

lemma foldl_insertProject_publication (l : List Project) (st : Store) :
    ((l.foldl (fun s p => insertProject s p.toRaw) st)).publication
      = st.publication := by
  induction l generalizing st with
  | nil => rfl
  | cons a t ih =>
      rw [List.foldl_cons, ih]
      rfl

lemma foldl_insertProject_blogpost (l : List Project) (st : Store) :
    ((l.foldl (fun s p => insertProject s p.toRaw) st)).blogpost
      = st.blogpost := by
  induction l generalizing st with
  | nil => rfl
  | cons a t ih =>
      rw [List.foldl_cons, ih]
      rfl

lemma foldl_insertPublication_publication (l : List RawPublication)
    (st : Store) :
    (l.foldl insertPublication st).publication.length
      = st.publication.length + l.length := by
  induction l generalizing st with
  | nil => rfl
  | cons a t ih =>
      rw [List.foldl_cons, ih]
      simp [insertPublication]
      omega

lemma foldl_insertPublication_project (l : List RawPublication)
    (st : Store) :
    (l.foldl insertPublication st).project = st.project := by
  induction l generalizing st with
  | nil => rfl
  | cons a t ih =>
      rw [List.foldl_cons, ih]
      rfl

lemma foldl_insertPublication_blogpost (l : List RawPublication)
    (st : Store) :
    (l.foldl insertPublication st).blogpost = st.blogpost := by
  induction l generalizing st with
  | nil => rfl
  | cons a t ih =>
      rw [List.foldl_cons, ih]
      rfl

lemma foldl_insertBlogPost_blogpost (l : List RawBlogPost) (st : Store) :
    (l.foldl insertBlogPost st).blogpost.length
      = st.blogpost.length + l.length := by
  induction l generalizing st with
  | nil => rfl
  | cons a t ih =>
      rw [List.foldl_cons, ih]
      simp [insertBlogPost]
      omega

lemma foldl_insertBlogPost_project (l : List RawBlogPost) (st : Store) :
    (l.foldl insertBlogPost st).project = st.project := by
  induction l generalizing st with
  | nil => rfl
  | cons a t ih =>
      rw [List.foldl_cons, ih]
      rfl

lemma foldl_insertBlogPost_publication (l : List RawBlogPost) (st : Store) :
    (l.foldl insertBlogPost st).publication = st.publication := by
  induction l generalizing st with
  | nil => rfl
  | cons a t ih =>
      rw [List.foldl_cons, ih]
      rfl

lemma seedProjects_project_len (st : Store) :
    (seedProjects st).project.length ≠ 0 := by
  rw [seedProjects, count_documents_true]
  by_cases h : st.project.length = 0
  · simp only [h]
    rw [if_pos (by rfl)]
    rw [foldl_insertProject_project, h]
    have h3 : sampleProjects.length = 3 := rfl
    omega
  · rw [if_neg (by simpa using h)]
    exact h

lemma seedPublications_publication_len (st : Store) :
    (seedPublications st).publication.length ≠ 0 := by
  rw [seedPublications, count_documents_true]
  by_cases h : st.publication.length = 0
  · simp only [h]
    rw [if_pos (by rfl)]
    rw [foldl_insertPublication_publication, h]
    have h2 : samplePublications.length = 2 := rfl
    omega
  · rw [if_neg (by simpa using h)]
    exact h

lemma seedBlogPosts_blogpost_len (st : Store) :
    (seedBlogPosts st).blogpost.length ≠ 0 := by
  rw [seedBlogPosts, count_documents_true]
  by_cases h : st.blogpost.length = 0
  · simp only [h]
    rw [if_pos (by rfl)]
    rw [foldl_insertBlogPost_blogpost, h]
    have h4 : sampleBlogPosts.length = 4 := rfl
    omega
  · rw [if_neg (by simpa using h)]
    exact h

lemma seedPublications_project (st : Store) :
    (seedPublications st).project = st.project := by
  rw [seedPublications]
  split
  · rw [foldl_insertPublication_project]
  · rfl

lemma seedBlogPosts_project (st : Store) :
    (seedBlogPosts st).project = st.project := by
  rw [seedBlogPosts]
  split
  · rw [foldl_insertBlogPost_project]
  · rfl

lemma seedBlogPosts_publication (st : Store) :
    (seedBlogPosts st).publication = st.publication := by
  rw [seedBlogPosts]
  split
  · rw [foldl_insertBlogPost_publication]
  · rfl

lemma seedProjects_of_nonempty (st : Store)
    (h : st.project.length ≠ 0) : seedProjects st = st := by
  rw [seedProjects, count_documents_true]
  rw [if_neg (by simpa using h)]

lemma seedPublications_of_nonempty (st : Store)
    (h : st.publication.length ≠ 0) : seedPublications st = st := by
  rw [seedPublications, count_documents_true]
  rw [if_neg (by simpa using h)]

lemma seedBlogPosts_of_nonempty (st : Store)
    (h : st.blogpost.length ≠ 0) : seedBlogPosts st = st := by
  rw [seedBlogPosts, count_documents_true]
  rw [if_neg (by simpa using h)]

lemma seedStore_idem (st : Store) :
    seedStore (seedStore st) = seedStore st := by
  have hp : (seedStore st).project.length ≠ 0 := by
    rw [seedStore, seedBlogPosts_project, seedPublications_project]
    exact seedProjects_project_len st
  have hb : (seedStore st).blogpost.length ≠ 0 :=
    seedBlogPosts_blogpost_len _
  have hu : (seedStore st).publication.length ≠ 0 := by
    rw [seedStore, seedBlogPosts_publication]
    exact seedPublications_publication_len _
  conv =>
    lhs
    rw [seedStore]
  rw [seedProjects_of_nonempty _ hp, seedPublications_of_nonempty _ hu,
      seedBlogPosts_of_nonempty _ hb]

/-! ## Claim theorems -/

/-- C1 (amended): for every combination of optional parameters in which a
given `domain` is non-empty, a given `year` is non-zero and a given `q` is
non-empty, the filter `GET /projects` hands to the document store is
equivalent, on every document, to the spec's conjunction — exact match on
`domain` if given, AND exact match on `year` if given, AND the
case-insensitive substring clause on title/summary/tags if `q` is given —
and with all three parameters absent the filter matches every document. -/
theorem projects_filter_equiv_spec_nonfalsy
    (dm : Option String) (y : Option Int) (q : Option String)
    (d : RawProject) (hdm : dm ≠ some "") (hy : y ≠ some 0)
    (hq : q ≠ some "") :
    queryMatches (buildProjectQuery dm y q) d = specProjectFilter dm y q d ∧
    queryMatches (buildProjectQuery none none none) d = true := by
  refine ⟨?_, rfl⟩
  have h : buildProjectQuery dm y q = { domain := dm, year := y, orRegex := q } := by
    rw [buildProjectQuery, nonfalsy_str dm hdm, nonfalsy_int y hy,
        nonfalsy_str q hq]
  rw [h]
  rfl

/-- C1 counterexample: with `domain` given as the empty string, the filter
handed to the store is not equivalent to the spec's conjunction — the code
drops the clause entirely (Python truthiness), so a document with
`domain = "ML"` matches the built filter but not the spec's exact match on
the given empty `domain`. -/
theorem projects_filter_equiv_claim_cex :
    queryMatches (buildProjectQuery (some "") none none) cexRawDoc = true ∧
    specProjectFilter (some "") none none cexRawDoc = false := by
  constructor
  · decide
  · decide

/-- C1 witness: the amended equivalence applied at the concrete parameters
`domain=ML`, `year=2023`, `q=churn` and a concrete document. -/
theorem projects_filter_equiv_spec_nonfalsy_w :
    queryMatches (buildProjectQuery (some "ML") (some 2023) (some "churn"))
        cexRawDoc
      = specProjectFilter (some "ML") (some 2023) (some "churn") cexRawDoc ∧
    queryMatches (buildProjectQuery none none none) cexRawDoc = true :=
  projects_filter_equiv_spec_nonfalsy (some "ML") (some 2023) (some "churn")
    cexRawDoc (by decide) (by decide) (by decide)

/-- C2 (amended): for every `Project` payload whose other fields satisfy
the schema, validation succeeds exactly when `domain` is one of the fixed
enum strings ML, Analytics, Visualization, NLP, CV, "Time Series" (with a
space), MLOps, Other, and fails for every `domain` outside that set. -/
theorem project_domain_enum_validation (r : RawProject) (d : String)
    (hd : r.domain = some d) (hok : otherFieldsOk r = true) :
    (validateProject r).isSome = true ↔ d ∈ domainStrings := by
  rw [otherFieldsOk] at hok
  repeat rw [Bool.and_eq_true] at hok
  obtain ⟨⟨⟨⟨⟨⟨⟨⟨⟨⟨⟨h1, h2⟩, h3⟩, h4⟩, h5⟩, h6⟩, h7⟩, h8⟩, h9⟩, h10⟩,
    h11⟩, h12⟩ := hok
  obtain ⟨t1, e1⟩ := Option.isSome_iff_exists.mp h1
  obtain ⟨t2, e2⟩ := Option.isSome_iff_exists.mp h2
  obtain ⟨t3, e3⟩ := Option.isSome_iff_exists.mp h3
  obtain ⟨t4, e4⟩ := Option.isSome_iff_exists.mp h4
  obtain ⟨t5, e5⟩ := Option.isSome_iff_exists.mp h5
  obtain ⟨t6, e6⟩ := Option.isSome_iff_exists.mp h6
  obtain ⟨t7, e7⟩ := Option.isSome_iff_exists.mp h7
  obtain ⟨t8, e8⟩ := Option.isSome_iff_exists.mp h8
  obtain ⟨t9, e9⟩ := Option.isSome_iff_exists.mp h9
  obtain ⟨t10, e10⟩ := Option.isSome_iff_exists.mp h10
  obtain ⟨t11, e11⟩ := Option.isSome_iff_exists.mp h11
  obtain ⟨t12, e12⟩ := Option.isSome_iff_exists.mp h12
  rw [← parseDomain_isSome d]
  rw [validateProject]
  cases hpd : parseDomain d <;>
    simp [e1, e2, e3, e4, e5, e6, e7, e8, e9, e10, e11, e12, hd, hpd]

/-- C2 counterexample: the fixed enum value is spelled `"Time Series"`
(with a space) in the schema, not `"TimeSeries"`: an otherwise fully valid
payload with `domain = "TimeSeries"` fails validation, while the same
payload with `domain = "Time Series"` succeeds. -/
theorem project_domain_enum_claim_cex :
    otherFieldsOk (rawDomainProbe "TimeSeries") = true ∧
    validateProject (rawDomainProbe "TimeSeries") = none ∧
    (validateProject (rawDomainProbe "Time Series")).isSome = true := by
  refine ⟨by decide, rfl, rfl⟩

/-- C2 witness: the amended equivalence applied to a complete payload with
`domain = "ML"`. -/
theorem project_domain_enum_validation_w :
    (validateProject (rawDomainProbe "ML")).isSome = true ↔
      "ML" ∈ domainStrings :=
  project_domain_enum_validation (rawDomainProbe "ML") "ML" rfl (by decide)

/-- C3: calling `POST /seed` twice in succession leaves the store contents
identical after the second call — the second call returns the same store
state the first call produced, still acknowledging `{"status": "ok"}`,
because every collection emptiness check (`count == 0`) gating the inserts
is false after the first call. -/
theorem seed_twice_leaves_store_unchanged (st : Store) :
    (seed_content ((seed_content (some st)).1)).1
      = (seed_content (some st)).1 ∧
    (seed_content ((seed_content (some st)).1)).2 = .ok "ok" := by
  constructor
  · show some (seedStore (seedStore st)) = some (seedStore st)
    rw [seedStore_idem]
  · rfl

/-- C4: for every validated `ContactMessage`, `POST /contact` with a
configured store acknowledges with `{"status": "received"}` and appends
exactly one new document — the serialized message — to the
`contactmessage` collection, leaving the other collections unchanged. -/
theorem contact_persists_and_acknowledges (st : Store)
    (m : ContactMessage) :
    (submit_contact (some st) m).2 = .ok "received" ∧
    ∃ st2, (submit_contact (some st) m).1 = some st2 ∧
      st2.contactmessage = st.contactmessage ++ [⟨st.nextId, m.toRaw⟩] ∧
      st2.project = st.project ∧ st2.publication = st.publication ∧
      st2.blogpost = st.blogpost :=
  ⟨rfl, insertContact st m.toRaw, rfl, rfl, rfl, rfl, rfl⟩

/-- C5: for every `ContactMessage`, `POST /contact` with the store
unconfigured fails with the 500 "Database not configured" error and the
store state (absent) is unchanged — no document is inserted anywhere. -/
theorem contact_unconfigured_server_error (m : ContactMessage) :
    submit_contact none m
      = (none, .httpError 500 "Database not configured") := rfl

/-- C6: each of the three list endpoints returns the empty sequence, not an
error, when the store is unconfigured, for every choice of the /projects
filter parameters. -/
theorem list_endpoints_empty_when_unconfigured :
    (∀ dm y q, list_projects none dm y q = some []) ∧
    list_publications none = some [] ∧
    list_blog none = some [] :=
  ⟨fun _ _ _ => rfl, rfl, rfl⟩

/-- C7: `GET /projects` with no query parameters returns every stored
project document in store order, each with the store identifier removed and
coerced through the `Project` schema; moreover the coercion restores
exactly the project that was serialized into the store. -/
theorem projects_no_params_returns_all_stripped :
    (∀ st : Store, list_projects (some st) none none none
        = st.project.mapM (fun d => validateProject d.fields)) ∧
    (∀ p : Project, validateProject p.toRaw = some p) := by
  constructor
  · intro st
    have h : get_documents st.project
        (queryMatches (buildProjectQuery none none none)) = st.project :=
      List.filter_eq_self.mpr (fun a _ => rfl)
    calc list_projects (some st) none none none
        = (get_documents st.project
            (queryMatches (buildProjectQuery none none none))).mapM
            (fun d => validateProject d.fields) := rfl
      _ = st.project.mapM (fun d => validateProject d.fields) := by rw [h]
  · exact validateProject_toRaw

/-- C8 (amended): the list fields `Project.stack`, `Project.tags` and
`BlogPost.topics` default to the empty sequence when absent from the
payload, but `Publication.authors` carries no default — it is required,
and validation fails for every payload omitting it. -/
theorem list_field_defaults_amended :
    (∀ r p, validateProject r = some p → r.stack = none → p.stack = []) ∧
    (∀ r p, validateProject r = some p → r.tags = none → p.tags = []) ∧
    (∀ r p, validateBlogPost r = some p → r.topics = none →
      p.topics = []) ∧
    (∀ r : RawPublication, r.authors = none →
      validatePublication r = none) := by
  refine ⟨?_, ?_, ?_, ?_⟩
  · intro r p hv hs
    rw [validateProject] at hv
    split at hv <;> simp_all
    rw [← hv]
  · intro r p hv hs
    rw [validateProject] at hv
    split at hv <;> simp_all
    rw [← hv]
  · intro r p hv hs
    rw [validateBlogPost] at hv
    split at hv <;> simp_all
    rw [← hv]
  · intro r h
    rw [validatePublication]
    split <;> simp_all

/-- C8 counterexample: an otherwise complete `Publication` payload with
`authors` absent fails validation (the claim would have it succeed with
`authors = []`); supplying any `authors` value makes the same payload
validate. -/
theorem list_field_defaults_claim_cex :
    validatePublication rawPubNoAuthors = none ∧
    (validatePublication
      { rawPubNoAuthors with authors := some [] }).isSome = true :=
  ⟨rfl, rfl⟩

/-- C8 witness: the amended statement applied at concrete payloads omitting
`stack`, `tags`, `topics` and `authors` respectively. -/
theorem list_field_defaults_amended_w :
    minProject.stack = [] ∧ minProject.tags = [] ∧ minBlog.topics = [] ∧
    validatePublication rawPubNoAuthors = none :=
  ⟨list_field_defaults_amended.1 rawMinProject minProject rfl rfl,
   list_field_defaults_amended.2.1 rawMinProject minProject rfl rfl,
   list_field_defaults_amended.2.2.1 rawMinBlog minBlog rfl rfl,
   list_field_defaults_amended.2.2.2 rawPubNoAuthors rfl⟩

/-- C9: `GET /test` is a total rendering of the store state — with the
store unset it reports the not-connected status with an empty collections
list; with a reachable store it lists at most 10 collection names; and a
probe exception is caught and rendered as the truncated descriptive string,
with the collections list left empty. -/
theorem test_endpoint_reports_without_raising :
    (∀ env, test_database env none =
      { backend := "✅ Running",
        database := "⚠️ Available but not initialized",
        database_url := none, database_name := none,
        connection_status := "Not Connected", collections := [] }) ∧
    (∀ env nm names,
      (test_database env (some ⟨nm, .ok names⟩)).collections
          = names.take 10 ∧
      (test_database env (some ⟨nm, .ok names⟩)).collections.length ≤ 10 ∧
      (test_database env (some ⟨nm, .ok names⟩)).connection_status
          = "Connected") ∧
    (∀ env nm e,
      (test_database env (some ⟨nm, .error e⟩)).database
          = "⚠️ Connected but error: " ++ e.take 80 ∧
      (test_database env (some ⟨nm, .error e⟩)).collections = []) := by
  refine ⟨fun env => rfl, fun env nm names => ⟨rfl, ?_, rfl⟩,
    fun env nm e => ⟨rfl, rfl⟩⟩
  show (names.take 10).length ≤ 10
  exact List.length_take_le 10 names

/-- C10: a falsy filter parameter to `GET /projects` is silently treated as
absent — `domain=""`, `year=0` and `q=""` each build the same store filter
as omitting the parameter — and no built filter ever carries a `year`
clause equal to 0, so a project whose `year` field is 0 can never be
selected by exact-year filtering. -/
theorem falsy_filter_params_ignored :
    (∀ y q, buildProjectQuery (some "") y q = buildProjectQuery none y q) ∧
    (∀ dm q, buildProjectQuery dm (some 0) q
        = buildProjectQuery dm none q) ∧
    (∀ dm y, buildProjectQuery dm y (some "")
        = buildProjectQuery dm y none) ∧
    (∀ dm y q, ((buildProjectQuery dm y q).year == some 0) = false) := by
  refine ⟨fun y q => ?_, fun dm q => ?_, fun dm y => ?_, fun dm y q => ?_⟩
  · simp [buildProjectQuery, truthyStr]
  · simp [buildProjectQuery, truthyInt]
  · simp [buildProjectQuery, truthyStr]
  · rw [buildProjectQuery]
    cases y with
    | none => simp [truthyInt]
    | some n =>
        by_cases h : n = 0
        · simp [truthyInt, h]
        · have hb : (n != 0) = true := bne_iff_ne.mpr h
          simp [truthyInt, hb, h]

end PortfolioBackend
